import Mathlib

/-!
Verification development for the loop-runner server (`src/server.ts`).

The server's core is a loop controller (`runLoop`) driving an external agent
runtime: each iteration it runs a monitor shell command, builds a prompt from
the configuration store, creates a fresh agent session, dispatches the prompt,
records the result in a bounded history, clears working memory, broadcasts
events to subscribers, and sleeps for the configured interval.

We embed the relevant functions shallowly: the external collaborators (shell
spawn, session creation, prompt dispatch, the stop request arriving during a
sleep) are given per-iteration as an `IterEnv`; everything the code broadcasts
or the time it sleeps is recorded in an explicit `Action` trace, in program
order.  All definitions are computable so concrete runs can be evaluated.
-/

namespace LoopRunner

/-- `config.model` in `server.ts` (`{ providerID, modelID }`). -/
structure ModelRef where
  providerID : String
  modelID : String
deriving DecidableEq

/-- Mirrors `interface LoopConfig` (server.ts lines 13-23). -/
structure LoopConfig where
  model : ModelRef
  system : String
  user : String
  working : String
  persistent : String
  monitor : Option String
  interval : Nat
  maxIterations : Nat
  autoApprove : Bool
deriving DecidableEq

/-- One entry of `state.history` (server.ts lines 31-36). -/
structure HistoryEntry where
  iteration : Nat
  prompt : String
  response : String
  timestamp : Nat
deriving DecidableEq

/-- Mirrors `interface LoopState` (server.ts lines 25-37). -/
structure LoopState where
  running : Bool
  iteration : Nat
  sessionID : Option String
  lastOutput : String
  monitorOutput : String
  history : List HistoryEntry
deriving DecidableEq

/-- The initial `state` value (server.ts lines 39-46). -/
def initialState : LoopState :=
  { running := false, iteration := 0, sessionID := none, lastOutput := "",
    monitorOutput := "", history := [] }

/-- The initial `config` value (server.ts lines 48-59). -/
def defaultConfig : LoopConfig :=
  { model := { providerID := "anthropic", modelID := "claude-sonnet-4-20250514" },
    system := "You are a helpful assistant running in a continuous loop. You have access to working memory (cleared each iteration) and persistent memory (maintained across iterations).",
    user := "Analyze the current state and take appropriate action.",
    working := "", persistent := "", monitor := none,
    interval := 5000, maxIterations := 0, autoApprove := true }

/-- Events passed to `broadcast` in server.ts, discriminated by their `type`
field.  Payloads are kept only where a claim inspects them. -/
inductive Event where
  | state
  | config
  | iteration (n : Nat)
  | monitor (output : String)
  | prompt (text : String) (iteration : Nat)
  | response (text : String) (iteration : Nat)
  | error (message : String) (iteration : Option Nat)
  | stopped
deriving DecidableEq

/-- An observable action of the loop: a `broadcast` call, or an `await
sleep(ms)` that elapsed in full (server.ts lines 90-92: `sleep` is a bare
`setTimeout` promise, resolving only after the whole delay — nothing listens
to the abort signal). -/
inductive Action where
  | broadcast (e : Event)
  | slept (ms : Nat)
deriving DecidableEq

/-- Result of `Bun.spawn` when the process ran: captured stdout and stderr
(server.ts lines 99-104). -/
structure SpawnResult where
  stdout : String
  stderr : String
deriving DecidableEq

/-- Outcome of the monitor's `Bun.spawn`/read phase: either the captured
output, or a thrown error (caught by the `catch` at line 107). -/
inductive SpawnOutcome where
  | ok (r : SpawnResult)
  | thrown (err : String)
deriving DecidableEq

/-- Outcome of `opencodeClient.session.create()` (line 136): a session with an
id, or a response carrying no `data` (line 137). -/
inductive SessionResult where
  | ok (id : String)
  | noData
deriving DecidableEq

/-- A part of the agent response (`Part` in the SDK): the loop only reads
parts whose `type` is `"text"` (lines 214-219). -/
inductive Part where
  | text (t : String)
  | other (kind : String)
deriving DecidableEq

/-- Outcome of `opencodeClient.session.prompt(...)` (lines 148-155): a
response with `data.parts`, a resolved response with no `data` (the
`if (result.data)` guard at line 157), or a thrown error (the `catch` at
line 169). -/
inductive PromptOutcome where
  | ok (parts : List Part)
  | noData
  | exn (msg : String)
deriving DecidableEq

/-- The external world of one loop round: what the collaborators do, and
whether a `/api/stop` request lands while this round is sleeping. -/
structure IterEnv where
  spawn : SpawnOutcome
  session : SessionResult
  dispatch : PromptOutcome
  timestamp : Nat
  stopDuringSleep : Bool
deriving DecidableEq

/-- `runMonitor` (server.ts lines 94-111): if no monitor command is
configured, return at once touching nothing; otherwise set
`state.monitorOutput` to stdout plus a labeled stderr block when stderr is
non-empty, or to an error text if the spawn threw, and broadcast the output.
Returns the new state and the actions performed. -/
def runMonitor (c : LoopConfig) (s : LoopState) (spawn : SpawnOutcome) :
    LoopState × List Action :=
  match c.monitor with
  | none => (s, [])
  | some _command =>
    match spawn with
    | .ok r =>
        let out := r.stdout ++ (if r.stderr = "" then "" else "\n[stderr]\n" ++ r.stderr)
        ({ s with monitorOutput := out }, [Action.broadcast (Event.monitor out)])
    | .thrown err =>
        let out := "Error running monitor: " ++ err
        ({ s with monitorOutput := out }, [Action.broadcast (Event.monitor out)])

/-- The section list built by `buildPrompt` (server.ts lines 189-211):
conditional pushes for persistent memory, working memory, fenced monitor
output and previous response, then the task text and iteration marker. -/
def promptSections (c : LoopConfig) (s : LoopState) : List String :=
  let sections : List String := []
  let sections := if c.persistent = "" then sections else
    sections ++ ["## Persistent Memory\n" ++ c.persistent]
  let sections := if c.working = "" then sections else
    sections ++ ["## Working Memory (this iteration only)\n" ++ c.working]
  let sections := if s.monitorOutput = "" then sections else
    sections ++ ["## Monitor Output\n```\n" ++ s.monitorOutput ++ "\n```"]
  let sections := if s.lastOutput = "" then sections else
    sections ++ ["## Previous Response\n" ++ s.lastOutput]
  sections ++ ["## Current Task\n" ++ c.user,
               "\n---\nIteration: " ++ toString s.iteration]

/-- `buildPrompt` (server.ts line 211): `sections.join("\n\n")`. -/
def buildPrompt (c : LoopConfig) (s : LoopState) : String :=
  String.intercalate "\n\n" (promptSections c s)

/-- `extractResponse` (server.ts lines 214-219): keep text parts in order and
join them with newlines. -/
def extractResponse (parts : List Part) : String :=
  String.intercalate "\n"
    (parts.filterMap fun p =>
      match p with
      | .text t => some t
      | .other _ => none)

/-- The effect of a `/api/stop` request (server.ts lines 323-327) landing
during a sleep: `state.running = false` and `loopAbort.abort()`.  When no stop
lands, state and abort flag are unchanged. -/
def applyStop (s : LoopState) (aborted : Bool) (stop : Bool) : LoopState × Bool :=
  if stop then ({ s with running := false }, true) else (s, aborted)

/-- Result of one loop round: new config, new state, new abort flag, and the
actions (broadcasts and sleeps) performed during the round, in order. -/
structure StepResult where
  config : LoopConfig
  state : LoopState
  aborted : Bool
  actions : List Action
deriving DecidableEq

/-- One round of the `while` body of `runLoop` (server.ts lines 130-182),
entered after the running/abort condition and the ceiling check passed:
increment the counter and broadcast it; run the monitor; create a session —
on failure broadcast an error, sleep, and `continue` (skipping the
working-memory clear); otherwise record the session id, build and broadcast
the prompt, dispatch it (on a successful response update `lastOutput`, append
to history evicting the oldest past 100, and broadcast the response; on a
response without data do nothing; on a thrown error broadcast it with the
iteration number), clear `config.working`, broadcast the state snapshot, and
sleep if still running. -/
def iterStep (c : LoopConfig) (s : LoopState) (aborted : Bool) (env : IterEnv) :
    StepResult :=
  let s0 := { s with iteration := s.iteration + 1 }
  let a0 := [Action.broadcast (Event.iteration s0.iteration)]
  let m := runMonitor c s0 env.spawn
  let s1 := m.1
  let a1 := a0 ++ m.2
  match env.session with
  | .noData =>
      let a2 := a1 ++ [Action.broadcast (Event.error "Failed to create session" none),
                       Action.slept c.interval]
      let p := applyStop s1 aborted env.stopDuringSleep
      { config := c, state := p.1, aborted := p.2, actions := a2 }
  | .ok sid =>
      let s2 := { s1 with sessionID := some sid }
      let promptText := buildPrompt c s2
      let a2 := a1 ++ [Action.broadcast (Event.prompt promptText s2.iteration)]
      let step :=
        match env.dispatch with
        | .ok parts =>
            let response := extractResponse parts
            let hist := s2.history ++
              [({ iteration := s2.iteration, prompt := promptText,
                  response := response, timestamp := env.timestamp } : HistoryEntry)]
            let hist := if hist.length > 100 then hist.tail else hist
            ({ s2 with lastOutput := response, history := hist },
             a2 ++ [Action.broadcast (Event.response response s2.iteration)])
        | .noData => (s2, a2)
        | .exn msg =>
            (s2, a2 ++ [Action.broadcast (Event.error msg (some s2.iteration))])
      let s3 := step.1
      let a3 := step.2
      let c2 := { c with working := "" }
      let a4 := a3 ++ [Action.broadcast Event.state]
      if s3.running then
        let a5 := a4 ++ [Action.slept c2.interval]
        let p := applyStop s3 aborted env.stopDuringSleep
        { config := c2, state := p.1, aborted := p.2, actions := a5 }
      else
        { config := c2, state := s3, aborted := aborted, actions := a4 }

/-- The run-time view of the loop: the mutable config/state, the abort flag of
`loopAbort`, and the trace of actions so far. -/
structure RunState where
  config : LoopConfig
  state : LoopState
  aborted : Bool
  trace : List Action
deriving DecidableEq

/-- Execute one loop round on a `RunState`, appending the round's actions. -/
def iterBody (rs : RunState) (env : IterEnv) : RunState :=
  let r := iterStep rs.config rs.state rs.aborted env
  { config := r.config, state := r.state, aborted := r.aborted,
    trace := rs.trace ++ r.actions }

/-- The epilogue after the `while` loop (server.ts lines 185-186):
`state.running = false; broadcast({type: "stopped"})`. -/
def finishRun (rs : RunState) : RunState :=
  { rs with state := { rs.state with running := false },
            trace := rs.trace ++ [Action.broadcast Event.stopped] }

/-- Result of driving the loop against a finite environment list: either the
loop exited (and broadcast `stopped`), or the environment ran out while the
loop would still continue. -/
inductive RunOutcome where
  | finished (rs : RunState)
  | stillRunning (rs : RunState)
deriving DecidableEq

/-- The `while (state.running && !loopAbort.signal.aborted)` loop of `runLoop`
(server.ts lines 124-187), driven by one `IterEnv` per round.  The ceiling
check `config.maxIterations > 0 && state.iteration >= config.maxIterations`
(line 125) precedes the round body; hitting it sets `running` to false and
breaks. -/
def runLoopAux : RunState → List IterEnv → RunOutcome
  | rs, envs =>
    if rs.state.running = true ∧ rs.aborted = false then
      if 0 < rs.config.maxIterations ∧ rs.config.maxIterations ≤ rs.state.iteration then
        RunOutcome.finished (finishRun { rs with state := { rs.state with running := false } })
      else
        match envs with
        | [] => RunOutcome.stillRunning rs
        | env :: rest => runLoopAux (iterBody rs env) rest
    else
      RunOutcome.finished (finishRun rs)

/-- `runLoop` once the gateway is available (server.ts lines 119-187): set
`running`, reset the counter, fresh abort scope, broadcast a state snapshot,
then loop. -/
def runLoop (c : LoopConfig) (s : LoopState) (envs : List IterEnv) : RunOutcome :=
  runLoopAux
    { config := c, state := { s with running := true, iteration := 0 },
      aborted := false, trace := [Action.broadcast Event.state] } envs

/-- Project the final `RunState` out of a `RunOutcome`. -/
def runStateOf : RunOutcome → RunState
  | .finished rs => rs
  | .stillRunning rs => rs

def isStopped : Action → Bool
  | .broadcast .stopped => true
  | _ => false

def isIterationEv : Action → Bool
  | .broadcast (.iteration _) => true
  | _ => false

def isErrorEv : Action → Bool
  | .broadcast (.error _ _) => true
  | _ => false

/-- The durations of the sleeps in a trace, in order. -/
def sleepsOf (tr : List Action) : List Nat :=
  tr.filterMap fun a =>
    match a with
    | .slept ms => some ms
    | _ => none

/-- Whether the gateway (`startOpenCode`, server.ts lines 80-88) can be
established: `createOpencodeServer` either succeeds, or its promise rejects
with an error. -/
inductive GatewayInit where
  | ok
  | failure (msg : String)
deriving DecidableEq

/-- Observable outcome of a `POST /api/start` request: the loop's run result
(when the loop body actually ran), what was logged via `console.error`, the
actions broadcast/performed during the call, and the loop state afterwards. -/
structure StartResult where
  run : Option RunOutcome
  consoleError : Option String
  events : List Action
  finalState : LoopState
deriving DecidableEq

/-- The `POST /api/start` handler (server.ts lines 316-321) combined with the
gateway-setup prologue of `runLoop` (lines 113-117): a no-op when already
running; otherwise `runLoop()` is invoked with `.catch(console.error)`.  When
the gateway cannot be established, `await startOpenCode()` rejects before
`state.running` is set and before anything is broadcast, so the handler's
catch logs the error to the server console and nothing else happens. -/
def apiStart (gw : GatewayInit) (c : LoopConfig) (s : LoopState)
    (envs : List IterEnv) : StartResult :=
  if s.running then
    { run := none, consoleError := none, events := [], finalState := s }
  else
    match gw with
    | .failure msg =>
        { run := none, consoleError := some msg, events := [], finalState := s }
    | .ok =>
        let out := runLoop c s envs
        { run := some out, consoleError := none,
          events := (runStateOf out).trace, finalState := (runStateOf out).state }

/-- A provider/model/display-name triple returned by `fetchModels`
(server.ts lines 221-247). -/
structure ModelEntry where
  providerID : String
  modelID : String
  name : String
deriving DecidableEq

/-- One provider as returned by `opencodeClient.provider.list()`: an id and an
optional map of model id to display name (iterated via `Object.entries`). -/
structure ProviderEntry where
  id : String
  models : Option (List (String × String))
deriving DecidableEq

/-- The `data` payload of `provider.list()` (`providers.data.all`). -/
structure ProvidersData where
  all : List ProviderEntry
deriving DecidableEq

/-- Outcome of `opencodeClient.provider.list()`: resolves with optional data,
or throws (caught at server.ts line 244). -/
inductive ProviderListOutcome where
  | ok (data : Option ProvidersData)
  | thrown (msg : String)
deriving DecidableEq

/-- The accumulation loop of `fetchModels` (server.ts lines 235-243). -/
def collectModels (d : ProvidersData) : List ModelEntry :=
  (d.all.map fun p =>
    match p.models with
    | none => []
    | some ms =>
        ms.map fun m => { providerID := p.id, modelID := m.1, name := m.2 }).flatten

/-- `fetchModels` (server.ts lines 221-247).  `clientUp` is whether
`opencodeClient` is already set.  Crucially, `await startOpenCode()` at line
224 sits OUTSIDE the try/catch, so a gateway-establishment rejection
propagates out of `fetchModels`; only the provider-listing phase (lines
227-246) is guarded by the catch that returns the empty list. -/
def fetchModels (clientUp : Bool) (gw : GatewayInit)
    (plist : ProviderListOutcome) : Except String (List ModelEntry) :=
  match (if clientUp then GatewayInit.ok else gw) with
  | .failure msg => Except.error msg
  | .ok =>
      match plist with
      | .thrown _ => Except.ok []
      | .ok none => Except.ok []
      | .ok (some d) => Except.ok (collectModels d)

/-- The Prompt Builder as the spec words it, for comparison with the source's
`buildPrompt`: sections in the fixed order persistent memory, working memory,
monitor output (fenced as a code block), previous agent response — each
omitted entirely when its source string is empty — then always the task text
and a trailing iteration marker, joined with a blank line between sections. -/
def promptSpecSections (c : LoopConfig) (s : LoopState) : List String :=
  ([("## Persistent Memory\n" ++ c.persistent, c.persistent),
    ("## Working Memory (this iteration only)\n" ++ c.working, c.working),
    ("## Monitor Output\n```\n" ++ s.monitorOutput ++ "\n```", s.monitorOutput),
    ("## Previous Response\n" ++ s.lastOutput, s.lastOutput)].filterMap
      fun q => if q.2 = "" then none else some q.1) ++
  ["## Current Task\n" ++ c.user, "\n---\nIteration: " ++ toString s.iteration]

/-- Spec-side prompt: the section list above joined with blank lines. -/
def promptSpec (c : LoopConfig) (s : LoopState) : String :=
  String.intercalate "\n\n" (promptSpecSections c s)

/-! ### Concrete fixtures used by counterexamples and witnesses -/

/-- A config whose working memory is non-empty. -/
def cfgW : LoopConfig := { defaultConfig with working := "W" }

/-- A run state mid-run with non-empty working memory. -/
def rsW : RunState :=
  { config := cfgW, state := { initialState with running := true },
    aborted := false, trace := [] }

/-- An environment whose session creation yields no data. -/
def envSessionFail : IterEnv :=
  { spawn := .ok ⟨"", ""⟩, session := .noData, dispatch := .ok [],
    timestamp := 0, stopDuringSleep := false }

/-- A fully successful iteration environment. -/
def envOk : IterEnv :=
  { spawn := .ok ⟨"", ""⟩, session := .ok "s1",
    dispatch := .ok [Part.text "r"], timestamp := 0, stopDuringSleep := false }

/-- Dispatch resolves but carries no data. -/
def envNoData : IterEnv := { envOk with dispatch := .noData }

/-- Dispatch throws. -/
def envExn : IterEnv := { envOk with dispatch := .exn "boom" }

/-- A successful iteration during whose sleep a stop request lands. -/
def envOkStop : IterEnv := { envOk with stopDuringSleep := true }

/-- A state carrying non-empty monitor output from an earlier run. -/
def stM : LoopState := { initialState with monitorOutput := "M" }

/-- A plain mid-run run-state with the default config and empty trace. -/
def rs6 : RunState :=
  { config := defaultConfig, state := { initialState with running := true },
    aborted := false, trace := [] }

/-- A config with a monitor command configured. -/
def cfgMon : LoopConfig := { defaultConfig with monitor := some "ls" }

/-! ### Claims -/

/-- C4: the prompt builder is a pure function of the store and run state whose
output consists of the sections persistent memory, working memory, fenced
monitor output, previous response — in that fixed order, each omitted entirely
when its source string is empty — then always the task text and a trailing
iteration marker, joined with a blank line between sections: the source's
`buildPrompt` coincides with `promptSpec`, the direct formalisation of that
sentence. -/
theorem c4_prompt_builder (c : LoopConfig) (s : LoopState) :
    buildPrompt c s = promptSpec c s := by
  unfold buildPrompt promptSpec promptSections promptSpecSections
  by_cases h1 : c.persistent = "" <;> by_cases h2 : c.working = "" <;>
    by_cases h3 : s.monitorOutput = "" <;> by_cases h4 : s.lastOutput = "" <;>
    simp [h1, h2, h3, h4]

/-- C8: with a monitor command configured, the monitor runner produces as
monitor output the command's stdout followed by a labeled stderr block
exactly when stderr is non-empty; a thrown spawn/execution failure is caught
and turned into a textual message beginning with "Error" that becomes the
monitor output (the runner is a total function — nothing propagates). -/
theorem c8_monitor_contract (c : LoopConfig) (s : LoopState) (cmd : String)
    (hm : c.monitor = some cmd) :
    (∀ r, (runMonitor c s (.ok r)).1.monitorOutput =
        r.stdout ++ (if r.stderr = "" then "" else "\n[stderr]\n" ++ r.stderr)) ∧
    (∀ err,
      (runMonitor c s (.thrown err)).1.monitorOutput =
          "Error running monitor: " ++ err ∧
      ∃ rest, (runMonitor c s (.thrown err)).1.monitorOutput = "Error" ++ rest) := by
  refine ⟨fun r => by simp [runMonitor, hm],
    fun err => ⟨by simp [runMonitor, hm], ⟨" running monitor: " ++ err, ?_⟩⟩⟩
  have h5 : ("Error" : String) ++ " running monitor: " = "Error running monitor: " := by
    decide
  simp [runMonitor, hm, ← String.append_assoc, h5]

/-- C8 witness: evaluating the contract at a concrete failing command. -/
theorem c8_witness :
    (runMonitor cfgMon initialState (.thrown "boom")).1.monitorOutput =
      "Error running monitor: " ++ "boom" :=
  ((c8_monitor_contract cfgMon initialState "ls" rfl).2 "boom").1

/-- C10: when no monitor command is configured, `runMonitor` returns
immediately, leaving the whole state — in particular the stored monitor
output — unchanged and broadcasting nothing; consequently a non-empty
previously captured monitor output still appears as the fenced monitor
section of the next prompt. -/
theorem c10_monitor_frame (c : LoopConfig) (s : LoopState) (spawn : SpawnOutcome)
    (hm : c.monitor = none) :
    runMonitor c s spawn = (s, []) ∧
    (s.monitorOutput ≠ "" →
      ("## Monitor Output\n```\n" ++ s.monitorOutput ++ "\n```") ∈
        promptSections c s) := by
  constructor
  · simp [runMonitor, hm]
  · intro h
    unfold promptSections
    by_cases h1 : c.persistent = "" <;> by_cases h2 : c.working = "" <;>
      by_cases h4 : s.lastOutput = "" <;> simp [h1, h2, h4, h]

/-- C10 witness: stale monitor output "M" survives a monitor-less run and
shows up in the prompt sections. -/
theorem c10_witness :
    runMonitor defaultConfig stM (.ok ⟨"", ""⟩) = (stM, []) ∧
    ("## Monitor Output\n```\n" ++ stM.monitorOutput ++ "\n```") ∈
      promptSections defaultConfig stM :=
  ⟨(c10_monitor_frame defaultConfig stM (.ok ⟨"", ""⟩) rfl).1,
   (c10_monitor_frame defaultConfig stM (.ok ⟨"", ""⟩) rfl).2 (by decide)⟩

/-- C9 counterexample: when the gateway itself cannot be established
(`startOpenCode` rejects, server.ts line 224 — outside the try/catch), the
list-models operation does NOT return an empty list: the rejection propagates
out of `fetchModels`, contradicting the claim that every gateway failure
yields an empty list. -/
theorem c9_counterexample :
    fetchModels false (.failure "boom") (.ok none) = Except.error "boom" ∧
    Except.error "boom" ≠ (Except.ok [] : Except String (List ModelEntry)) :=
  ⟨rfl, fun h => Except.noConfusion h⟩

/-- C9 (amended): listing models is best-effort only past gateway
establishment — once the client is up (or establishes successfully), a
provider-listing throw or a missing payload yields the empty list, not an
error; but a failure to establish the gateway itself propagates as an error
out of `fetchModels`. -/
theorem c9_fetch_models (gw : GatewayInit) (d : ProvidersData) (m em : String) :
    fetchModels false (.failure em) (.ok (some d)) = Except.error em ∧
    fetchModels false (.failure em) (.thrown m) = Except.error em ∧
    fetchModels true gw (.thrown m) = Except.ok [] ∧
    fetchModels true gw (.ok none) = Except.ok [] ∧
    fetchModels false .ok (.thrown m) = Except.ok [] ∧
    fetchModels false .ok (.ok none) = Except.ok [] := by
  cases gw <;> exact ⟨rfl, rfl, rfl, rfl, rfl, rfl⟩

/-- C5 counterexample: starting the loop when the gateway cannot be
established publishes NOTHING to subscribers — in particular no error event —
because the rejection of `runLoop` is only handled by `.catch(console.error)`
(server.ts line 318); this contradicts the claim that an error event is
published. -/
theorem c5_counterexample :
    (apiStart (.failure "boom") defaultConfig initialState []).events = [] := by
  decide

/-- C5 (amended): if the gateway cannot be established at start, no event is
published to subscribers (the failure is only logged to the server console);
the controller remains Idle — the running flag is never set and the loop body
never executes. -/
theorem c5_setup_failure (c : LoopConfig) (s : LoopState) (envs : List IterEnv)
    (msg : String) (h : s.running = false) :
    apiStart (.failure msg) c s envs =
      { run := none, consoleError := some msg, events := [], finalState := s } ∧
    (apiStart (.failure msg) c s envs).finalState.running = false := by
  refine ⟨by simp [apiStart, h], ?_⟩
  simp [apiStart, h]

/-- C5 witness: the amended behaviour at a concrete idle state. -/
theorem c5_witness :
    apiStart (.failure "down") defaultConfig initialState [] =
      { run := none, consoleError := some "down", events := [],
        finalState := initialState } :=
  (c5_setup_failure defaultConfig initialState [] "down" rfl).1

/-- C2 counterexample: an iteration whose session creation fails hits the
`continue` at server.ts line 140 BEFORE the `config.working = ""` at line
177, so the working memory is NOT cleared: starting from working memory "W",
it is still non-empty after the iteration, contradicting the claim. -/
theorem c2_counterexample :
    (iterBody rsW envSessionFail).config.working ≠ "" := by decide

/-- C2 (amended): working memory is cleared to the empty string after every
iteration whose session creation succeeds — both on successful dispatch and
on dispatch failure, regardless of its prior value; after an iteration whose
session creation fails, the configuration (working memory included) is
unchanged. -/
theorem c2_working_memory (rs : RunState) (env : IterEnv) :
    ((∃ sid, env.session = SessionResult.ok sid) →
        (iterBody rs env).config.working = "") ∧
    (env.session = SessionResult.noData → (iterBody rs env).config = rs.config) := by
  constructor
  · rintro ⟨sid, hs⟩
    simp only [iterBody, iterStep, hs]
    cases hd : env.dispatch <;> simp [hd] <;> split <;> simp
  · intro hs
    simp only [iterBody, iterStep, hs]

/-- C2 witness: a successfully dispatched iteration clears working memory. -/
theorem c2_witness : (iterBody rsW envOk).config.working = "" :=
  (c2_working_memory rsW envOk).1 ⟨"s1", rfl⟩

/-! ### Frame and counting helper lemmas -/

@[simp] lemma runMonitor_running (c : LoopConfig) (s : LoopState) (sp : SpawnOutcome) :
    (runMonitor c s sp).1.running = s.running := by
  cases hm : c.monitor <;> cases sp <;> simp [runMonitor, hm]

@[simp] lemma runMonitor_iteration (c : LoopConfig) (s : LoopState) (sp : SpawnOutcome) :
    (runMonitor c s sp).1.iteration = s.iteration := by
  cases hm : c.monitor <;> cases sp <;> simp [runMonitor, hm]

@[simp] lemma runMonitor_sessionID (c : LoopConfig) (s : LoopState) (sp : SpawnOutcome) :
    (runMonitor c s sp).1.sessionID = s.sessionID := by
  cases hm : c.monitor <;> cases sp <;> simp [runMonitor, hm]

@[simp] lemma runMonitor_lastOutput (c : LoopConfig) (s : LoopState) (sp : SpawnOutcome) :
    (runMonitor c s sp).1.lastOutput = s.lastOutput := by
  cases hm : c.monitor <;> cases sp <;> simp [runMonitor, hm]

@[simp] lemma runMonitor_history (c : LoopConfig) (s : LoopState) (sp : SpawnOutcome) :
    (runMonitor c s sp).1.history = s.history := by
  cases hm : c.monitor <;> cases sp <;> simp [runMonitor, hm]

@[simp] lemma runMonitor_countStopped (c : LoopConfig) (s : LoopState) (sp : SpawnOutcome) :
    (runMonitor c s sp).2.countP isStopped = 0 := by
  cases hm : c.monitor <;> cases sp <;> simp [runMonitor, hm, isStopped]

@[simp] lemma runMonitor_countIterationEv (c : LoopConfig) (s : LoopState) (sp : SpawnOutcome) :
    (runMonitor c s sp).2.countP isIterationEv = 0 := by
  cases hm : c.monitor <;> cases sp <;> simp [runMonitor, hm, isIterationEv]

@[simp] lemma runMonitor_countErrorEv (c : LoopConfig) (s : LoopState) (sp : SpawnOutcome) :
    (runMonitor c s sp).2.countP isErrorEv = 0 := by
  cases hm : c.monitor <;> cases sp <;> simp [runMonitor, hm, isErrorEv]

@[simp] lemma runMonitor_sleeps (c : LoopConfig) (s : LoopState) (sp : SpawnOutcome) :
    sleepsOf (runMonitor c s sp).2 = [] := by
  cases hm : c.monitor <;> cases sp <;> simp [runMonitor, hm, sleepsOf]

@[simp] lemma sleepsOf_nil : sleepsOf [] = [] := rfl

@[simp] lemma sleepsOf_append (l₁ l₂ : List Action) :
    sleepsOf (l₁ ++ l₂) = sleepsOf l₁ ++ sleepsOf l₂ := by
  simp [sleepsOf, List.filterMap_append]

/-- The increment of the iteration counter survives the whole round. -/
lemma iterStep_iteration (c : LoopConfig) (s : LoopState) (ab : Bool) (env : IterEnv) :
    (iterStep c s ab env).state.iteration = s.iteration + 1 := by
  simp only [iterStep]
  cases hs : env.session <;> cases hd : env.dispatch <;>
    cases hst : env.stopDuringSleep <;>
    simp [applyStop, hst] <;> try (split <;> simp)

/-- The round never touches the iteration ceiling or the interval. -/
lemma iterStep_config (c : LoopConfig) (s : LoopState) (ab : Bool) (env : IterEnv) :
    (iterStep c s ab env).config.maxIterations = c.maxIterations ∧
    (iterStep c s ab env).config.interval = c.interval := by
  simp only [iterStep]
  cases hs : env.session <;> cases hd : env.dispatch <;>
    cases hst : env.stopDuringSleep <;>
    simp [applyStop, hst] <;> try (split <;> simp)

/-- Without a stop request, a round preserves the running flag and the abort
flag. -/
lemma iterStep_no_stop (c : LoopConfig) (s : LoopState) (ab : Bool) (env : IterEnv)
    (hns : env.stopDuringSleep = false) :
    (iterStep c s ab env).state.running = s.running ∧
    (iterStep c s ab env).aborted = ab := by
  simp only [iterStep]
  cases hs : env.session <;> cases hd : env.dispatch <;>
    simp [applyStop, hns] <;> try (split <;> simp_all)

set_option maxHeartbeats 1000000 in
/-- A round broadcasts no `stopped` event. -/
lemma iterStep_countStopped (c : LoopConfig) (s : LoopState) (ab : Bool) (env : IterEnv) :
    (iterStep c s ab env).actions.countP isStopped = 0 := by
  cases hm : c.monitor <;> cases hsp : env.spawn <;>
    cases hs : env.session <;> cases hd : env.dispatch <;>
    cases hst : env.stopDuringSleep <;>
    simp [iterStep, runMonitor, hm, hsp, hs, hd, applyStop, hst, isStopped,
          List.countP_append, List.countP_cons] <;>
    try (split <;> simp [isStopped, List.countP_append, List.countP_cons])

set_option maxHeartbeats 1000000 in
/-- A round broadcasts exactly one `iteration` event. -/
lemma iterStep_countIterationEv (c : LoopConfig) (s : LoopState) (ab : Bool) (env : IterEnv) :
    (iterStep c s ab env).actions.countP isIterationEv = 1 := by
  cases hm : c.monitor <;> cases hsp : env.spawn <;>
    cases hs : env.session <;> cases hd : env.dispatch <;>
    cases hst : env.stopDuringSleep <;>
    simp [iterStep, runMonitor, hm, hsp, hs, hd, applyStop, hst, isIterationEv,
          List.countP_append, List.countP_cons] <;>
    try (split <;> simp [isIterationEv, List.countP_append, List.countP_cons])

/-- One-step unfolding of `runLoopAux`, stated without the match wrapper. -/
lemma runLoopAux_eq (rs : RunState) (envs : List IterEnv) :
    runLoopAux rs envs =
      if rs.state.running = true ∧ rs.aborted = false then
        if 0 < rs.config.maxIterations ∧
            rs.config.maxIterations ≤ rs.state.iteration then
          RunOutcome.finished
            (finishRun { rs with state := { rs.state with running := false } })
        else
          match envs with
          | [] => RunOutcome.stillRunning rs
          | env :: rest => runLoopAux (iterBody rs env) rest
      else RunOutcome.finished (finishRun rs) := by
  cases envs <;> rfl

lemma iterBody_trace (rs : RunState) (env : IterEnv) :
    (iterBody rs env).trace =
      rs.trace ++ (iterStep rs.config rs.state rs.aborted env).actions := rfl

lemma iterBody_state (rs : RunState) (env : IterEnv) :
    (iterBody rs env).state = (iterStep rs.config rs.state rs.aborted env).state := rfl

lemma iterBody_config (rs : RunState) (env : IterEnv) :
    (iterBody rs env).config = (iterStep rs.config rs.state rs.aborted env).config := rfl

lemma iterBody_aborted (rs : RunState) (env : IterEnv) :
    (iterBody rs env).aborted = (iterStep rs.config rs.state rs.aborted env).aborted := rfl

/-- C6 counterexample: a dispatch that resolves without data is a failed
dispatch (`if (result.data)` at server.ts line 157 is skipped), yet the round
publishes NO error event at all — contradicting the claim that every dispatch
failure publishes an error event with the iteration number. -/
theorem c6_counterexample :
    (iterBody rs6 envNoData).trace.countP isErrorEv = 0 := by decide

set_option maxHeartbeats 1000000 in
/-- C6 (amended): when the dispatch call throws, an error event carrying the
iteration number is published, no history entry is appended, the last-output
field is unchanged, and (absent a stop request) the loop continues; when the
dispatch resolves without a data payload, the same frame holds but no error
event is published. -/
theorem c6_dispatch_failure (rs : RunState) (env : IterEnv) (sid : String)
    (hs : env.session = SessionResult.ok sid) :
    (∀ msg, env.dispatch = PromptOutcome.exn msg →
      (iterBody rs env).state.history = rs.state.history ∧
      (iterBody rs env).state.lastOutput = rs.state.lastOutput ∧
      (env.stopDuringSleep = false →
        (iterBody rs env).state.running = rs.state.running) ∧
      (iterBody rs env).trace.countP isErrorEv = rs.trace.countP isErrorEv + 1 ∧
      Action.broadcast (Event.error msg (some (rs.state.iteration + 1))) ∈
        (iterBody rs env).trace) ∧
    (env.dispatch = PromptOutcome.noData →
      (iterBody rs env).state.history = rs.state.history ∧
      (iterBody rs env).state.lastOutput = rs.state.lastOutput ∧
      (env.stopDuringSleep = false →
        (iterBody rs env).state.running = rs.state.running) ∧
      (iterBody rs env).trace.countP isErrorEv = rs.trace.countP isErrorEv) := by
  constructor
  · intro msg hd
    cases hm : rs.config.monitor <;> cases hsp : env.spawn <;>
      cases hst : env.stopDuringSleep <;>
      simp only [iterBody, iterStep, runMonitor, hs, hd, hm, hsp] <;>
      refine ⟨?_, ?_, ?_, ?_, ?_⟩ <;>
      simp [applyStop, hst, isErrorEv, List.countP_append, List.countP_cons] <;>
      try (split <;> simp_all [isErrorEv, List.countP_append, List.countP_cons])
  · intro hd
    cases hm : rs.config.monitor <;> cases hsp : env.spawn <;>
      cases hst : env.stopDuringSleep <;>
      simp only [iterBody, iterStep, runMonitor, hs, hd, hm, hsp] <;>
      refine ⟨?_, ?_, ?_, ?_⟩ <;>
      simp [applyStop, hst, isErrorEv, List.countP_append, List.countP_cons] <;>
      try (split <;> simp_all [isErrorEv, List.countP_append, List.countP_cons])

/-- C6 witness: a throwing dispatch at a concrete state. -/
theorem c6_witness :
    (iterBody rs6 envExn).state.history = rs6.state.history ∧
    (iterBody rs6 envExn).trace.countP isErrorEv = rs6.trace.countP isErrorEv + 1 :=
  ⟨((c6_dispatch_failure rs6 envExn "s1" rfl).1 "boom" rfl).1,
   ((c6_dispatch_failure rs6 envExn "s1" rfl).1 "boom" rfl).2.2.2.1⟩

/-- Every action the monitor performs is a `monitor` broadcast. -/
lemma runMonitor_mem (c : LoopConfig) (s : LoopState) (sp : SpawnOutcome) :
    ∀ a ∈ (runMonitor c s sp).2, ∃ out, a = Action.broadcast (Event.monitor out) := by
  cases hm : c.monitor <;> cases sp <;> simp [runMonitor, hm]

/-- A round started while running sleeps exactly once, for the full configured
interval (the `sleep` helper never listens to the abort signal). -/
lemma iterStep_sleeps (c : LoopConfig) (s : LoopState) (ab : Bool) (env : IterEnv)
    (hr : s.running = true) :
    sleepsOf (iterStep c s ab env).actions = [c.interval] := by
  cases hs : env.session <;> cases hd : env.dispatch <;>
    cases hst : env.stopDuringSleep <;>
    simp [iterStep, hs, hd, applyStop, hst, hr, sleepsOf, List.filterMap_append]
  all_goals
    intro a ha
    obtain ⟨out, rfl⟩ := runMonitor_mem _ _ _ a ha
    rfl

/-- A stop landing during the round's sleep leaves the loop not running. -/
lemma iterStep_stop (c : LoopConfig) (s : LoopState) (ab : Bool) (env : IterEnv)
    (hst : env.stopDuringSleep = true) (hr : s.running = true) :
    (iterStep c s ab env).state.running = false := by
  cases hs : env.session <;> cases hd : env.dispatch <;>
    simp [iterStep, hs, hd, applyStop, hst, hr]

/-- C7 counterexample: in a two-round run whose stop request lands during the
second round's pacing sleep, that sleep still elapses for the full configured
5000ms interval — it is recorded as `slept 5000`, not anything shorter — so
the stop does NOT interrupt the sleep as the claim states (the loop does then
reach Idle without a third iteration, emitting one `stopped`). -/
theorem c7_counterexample :
    sleepsOf (runStateOf (runLoop defaultConfig initialState [envOk, envOkStop])).trace
      = [5000, 5000] ∧
    (runStateOf (runLoop defaultConfig initialState [envOk, envOkStop])).trace.countP
      isIterationEv = 2 ∧
    (runStateOf (runLoop defaultConfig initialState [envOk, envOkStop])).trace.countP
      isStopped = 1 ∧
    (runStateOf (runLoop defaultConfig initialState [envOk, envOkStop])).state.running
      = false := by
  decide

/-- C7 (amended): a `stop()` issued while the loop is sleeping between
iterations does NOT cut the sleep short — the round's sleep still lasts the
full configured interval — but afterwards the loop reaches Idle without
starting another iteration: the run finishes immediately whatever environment
remains, with exactly one more `iteration` event (the round the sleep belongs
to) and one `stopped` event. -/
theorem c7_stop_during_sleep (rs : RunState) (env : IterEnv) (rest : List IterEnv)
    (hr : rs.state.running = true) (_hab : rs.aborted = false)
    (hst : env.stopDuringSleep = true) :
    sleepsOf (iterBody rs env).trace = sleepsOf rs.trace ++ [rs.config.interval] ∧
    (iterBody rs env).state.running = false ∧
    runLoopAux (iterBody rs env) rest =
      RunOutcome.finished (finishRun (iterBody rs env)) ∧
    (finishRun (iterBody rs env)).trace.countP isIterationEv =
      rs.trace.countP isIterationEv + 1 ∧
    (finishRun (iterBody rs env)).trace.countP isStopped =
      rs.trace.countP isStopped + 1 := by
  have hnr : (iterBody rs env).state.running = false := by
    rw [iterBody_state]
    exact iterStep_stop rs.config rs.state rs.aborted env hst hr
  refine ⟨?_, hnr, ?_, ?_, ?_⟩
  · rw [iterBody_trace, sleepsOf_append,
        iterStep_sleeps rs.config rs.state rs.aborted env hr]
  · rw [runLoopAux_eq, if_neg (fun hc => by simp [hnr] at hc)]
  · rw [finishRun]
    simp [iterBody_trace, List.countP_append, List.countP_cons, isIterationEv,
          iterStep_countIterationEv]
  · rw [finishRun]
    simp [iterBody_trace, List.countP_append, List.countP_cons, isStopped,
          iterStep_countStopped]

/-- C7 witness: the amended behaviour at a concrete state and environment. -/
theorem c7_witness :
    sleepsOf (iterBody rs6 envOkStop).trace =
      sleepsOf rs6.trace ++ [rs6.config.interval] ∧
    (iterBody rs6 envOkStop).state.running = false ∧
    runLoopAux (iterBody rs6 envOkStop) [] =
      RunOutcome.finished (finishRun (iterBody rs6 envOkStop)) :=
  ⟨(c7_stop_during_sleep rs6 envOkStop [] rfl rfl rfl).1,
   (c7_stop_during_sleep rs6 envOkStop [] rfl rfl rfl).2.1,
   (c7_stop_during_sleep rs6 envOkStop [] rfl rfl rfl).2.2.1⟩

/-- With a positive ceiling exactly `envs.length` rounds away and no external
stop, the loop finishes at the ceiling: one more `stopped` broadcast, one
`iteration` broadcast per round, running flag cleared. -/
lemma runLoopAux_ceiling (envs : List IterEnv) :
    ∀ rs : RunState, rs.state.running = true → rs.aborted = false →
      (∀ e ∈ envs, e.stopDuringSleep = false) →
      0 < rs.config.maxIterations →
      rs.state.iteration + envs.length = rs.config.maxIterations →
      ∃ rsf, runLoopAux rs envs = RunOutcome.finished rsf ∧
        rsf.state.iteration = rs.config.maxIterations ∧
        rsf.state.running = false ∧
        rsf.trace.countP isStopped = rs.trace.countP isStopped + 1 ∧
        rsf.trace.countP isIterationEv =
          rs.trace.countP isIterationEv + envs.length := by
  induction envs with
  | nil =>
      intro rs hr hab _ hpos hlen
      simp only [List.length_nil, Nat.add_zero] at hlen
      rw [runLoopAux, if_pos ⟨hr, hab⟩, if_pos ⟨hpos, le_of_eq hlen.symm⟩]
      refine ⟨_, rfl, ?_, ?_, ?_, ?_⟩ <;>
        simp [finishRun, List.countP_append, List.countP_cons, isStopped,
              isIterationEv, hlen]
  | cons env rest ih =>
      intro rs hr hab hns hpos hlen
      simp only [List.length_cons] at hlen
      have hlt : rs.state.iteration < rs.config.maxIterations := by omega
      rw [runLoopAux, if_pos ⟨hr, hab⟩, if_neg (fun hc => absurd hc.2 (by omega))]
      obtain ⟨hpr, hpa⟩ :=
        iterStep_no_stop rs.config rs.state rs.aborted env (hns env (by simp))
      obtain ⟨hcm, _⟩ := iterStep_config rs.config rs.state rs.aborted env
      obtain ⟨rsf, e1, e2, e3, e4, e5⟩ := ih (iterBody rs env)
        (by rw [iterBody_state, hpr]; exact hr)
        (by rw [iterBody_aborted, hpa]; exact hab)
        (fun e he => hns e (List.mem_cons_of_mem _ he))
        (by rw [iterBody_config, hcm]; exact hpos)
        (by rw [iterBody_config, hcm, iterBody_state,
                iterStep_iteration rs.config rs.state rs.aborted env]; omega)
      refine ⟨rsf, e1, ?_, e3, ?_, ?_⟩
      · rw [e2, iterBody_config, hcm]
      · rw [e4, iterBody_trace, List.countP_append,
            iterStep_countStopped rs.config rs.state rs.aborted env]
      · rw [e5, iterBody_trace, List.countP_append,
            iterStep_countIterationEv rs.config rs.state rs.aborted env]
        simp only [List.length_cons]
        omega

/-- With a zero ceiling and no external stop, however many rounds the
environment supplies, the loop is still running afterwards and has never
broadcast `stopped`. -/
lemma runLoopAux_unbounded (envs : List IterEnv) :
    ∀ rs : RunState, rs.state.running = true → rs.aborted = false →
      (∀ e ∈ envs, e.stopDuringSleep = false) →
      rs.config.maxIterations = 0 →
      ∃ rsf, runLoopAux rs envs = RunOutcome.stillRunning rsf ∧
        rsf.state.running = true ∧
        rsf.trace.countP isStopped = rs.trace.countP isStopped := by
  induction envs with
  | nil =>
      intro rs hr hab _ h0
      rw [runLoopAux, if_pos ⟨hr, hab⟩, if_neg (by simp [h0])]
      exact ⟨rs, rfl, hr, rfl⟩
  | cons env rest ih =>
      intro rs hr hab hns h0
      rw [runLoopAux, if_pos ⟨hr, hab⟩, if_neg (by simp [h0])]
      obtain ⟨hpr, hpa⟩ :=
        iterStep_no_stop rs.config rs.state rs.aborted env (hns env (by simp))
      obtain ⟨hcm, _⟩ := iterStep_config rs.config rs.state rs.aborted env
      obtain ⟨rsf, e1, e2, e3⟩ := ih (iterBody rs env)
        (by rw [iterBody_state, hpr]; exact hr)
        (by rw [iterBody_aborted, hpa]; exact hab)
        (fun e he => hns e (List.mem_cons_of_mem _ he))
        (by rw [iterBody_config, hcm]; exact h0)
      refine ⟨rsf, e1, e2, ?_⟩
      rw [e3, iterBody_trace, List.countP_append,
          iterStep_countStopped rs.config rs.state rs.aborted env]
      omega

/-- C1: for a configured maximum iteration count N > 0, a run that is never
externally stopped and has N rounds of environment completes exactly N
iterations (N `iteration` events, counter at N), then transitions to Idle
(running flag false) and emits exactly one `stopped` event; for a configured
maximum of 0 the loop never stops by count: after any number of rounds it is
still running and has emitted no `stopped` event. -/
theorem c1_iteration_ceiling (c : LoopConfig) (s : LoopState) (envs : List IterEnv)
    (hns : ∀ e ∈ envs, e.stopDuringSleep = false) :
    (0 < c.maxIterations → envs.length = c.maxIterations →
      ∃ rsf, runLoop c s envs = RunOutcome.finished rsf ∧
        rsf.state.iteration = c.maxIterations ∧
        rsf.state.running = false ∧
        rsf.trace.countP isStopped = 1 ∧
        rsf.trace.countP isIterationEv = c.maxIterations) ∧
    (c.maxIterations = 0 →
      ∃ rsf, runLoop c s envs = RunOutcome.stillRunning rsf ∧
        rsf.state.running = true ∧
        rsf.trace.countP isStopped = 0) := by
  constructor
  · intro hpos hlen
    obtain ⟨rsf, e1, e2, e3, e4, e5⟩ := runLoopAux_ceiling envs
      { config := c, state := { s with running := true, iteration := 0 },
        aborted := false, trace := [Action.broadcast Event.state] }
      rfl rfl hns hpos (by simpa using hlen)
    refine ⟨rsf, e1, e2, e3, ?_, ?_⟩
    · simpa [isStopped, List.countP_cons] using e4
    · simpa [isIterationEv, List.countP_cons, hlen] using e5
  · intro h0
    obtain ⟨rsf, e1, e2, e3⟩ := runLoopAux_unbounded envs
      { config := c, state := { s with running := true, iteration := 0 },
        aborted := false, trace := [Action.broadcast Event.state] }
      rfl rfl hns h0
    refine ⟨rsf, e1, e2, ?_⟩
    simpa [isStopped, List.countP_cons] using e3

/-- A config with a ceiling of two iterations. -/
def c1cfg : LoopConfig := { defaultConfig with maxIterations := 2 }

/-- C1 witness: a two-iteration ceiling against two successful rounds. -/
theorem c1_witness :
    (runStateOf (runLoop c1cfg initialState [envOk, envOk])).state.iteration =
      c1cfg.maxIterations ∧
    (runStateOf (runLoop c1cfg initialState [envOk, envOk])).state.running = false ∧
    (runStateOf (runLoop c1cfg initialState [envOk, envOk])).trace.countP
      isStopped = 1 := by
  obtain ⟨rsf, e1, e2, e3, e4, _⟩ :=
    (c1_iteration_ceiling c1cfg initialState [envOk, envOk] (by decide)).1
      (by decide) (by decide)
  rw [e1]
  exact ⟨e2, e3, e4⟩

/-- Appending one history entry and evicting the oldest past 100 keeps the
length within the bound. -/
lemma iterStep_history (c : LoopConfig) (s : LoopState) (ab : Bool) (env : IterEnv)
    (h : s.history.length ≤ 100) :
    (iterStep c s ab env).state.history.length ≤ 100 := by
  cases hs : env.session <;> cases hd : env.dispatch <;>
    cases hst : env.stopDuringSleep <;>
    simp only [iterStep, hs, hd, applyStop, hst]
  all_goals try simp_all
  all_goals try (split_ifs <;> simp_all [List.length_tail, List.length_append])

/-- 101 fully successful rounds. -/
def envs101 : List IterEnv := List.replicate 101 envOk

set_option maxRecDepth 100000 in
set_option maxHeartbeats 4000000 in
/-- C3: the history never exceeds 100 entries after any loop round, and after
101 successful iterations from an empty history the records present are
exactly those of iterations 2 through 101 in insertion order — the record for
iteration 1 has been evicted first (FIFO) and the record for iteration 101 is
present. -/
theorem c3_history_bound :
    (∀ (rs : RunState) (env : IterEnv), rs.state.history.length ≤ 100 →
      (iterBody rs env).state.history.length ≤ 100) ∧
    ((runStateOf (runLoop defaultConfig initialState envs101)).state.history.map
        (fun h => h.iteration) = List.range' 2 100) ∧
    (1 ∉ (runStateOf (runLoop defaultConfig initialState envs101)).state.history.map
        (fun h => h.iteration)) ∧
    (101 ∈ (runStateOf (runLoop defaultConfig initialState envs101)).state.history.map
        (fun h => h.iteration)) := by
  refine ⟨?_, by decide, by decide, by decide⟩
  intro rs env h
  rw [iterBody_state]
  exact iterStep_history rs.config rs.state rs.aborted env h

/-- C3 witness: the bound applied at a concrete state. -/
theorem c3_witness : (iterBody rs6 envOk).state.history.length ≤ 100 :=
  c3_history_bound.1 rs6 envOk (by decide)

end LoopRunner
